import Mathlib

/-!
Shallow embedding of the latest-batch alert evaluator of `src/NMO.py`
(`analyze_results`, lines 93-212), together with proofs of the
specification's claims about it.

Modelling conventions:
* Timestamps are `Nat` time points.  `pd.to_datetime` on the raw column
  (line 119) runs with its default errors = raise: a missing/empty cell
  becomes `NaT`, while a malformed non-empty cell raises, and the except
  of lines 122-124 then returns the wall-clock no-data sentinel for the
  whole run.  `RawTimestamp` distinguishes the three cell outcomes;
  `analyzeResults` embeds the routine including that conversion guard,
  and `evaluate` embeds the analysis of a successfully converted frame,
  in which `timestamp` is `none` for a missing cell (`NaT`) and `some t`
  for a parsed one.
* `targetPort` is the result of `pd.to_numeric(..., errors := coerce)`
  (line 121): `none` models `NaN` (absent or non-numeric), `some p` a
  parsed port number.
* `success` is the raw string field (`none` = missing/`NaN` cell); the
  boolean coercion pipeline of lines 126-129 (lower-case mapping through
  true/false/yes/no, then `fillna(False)`) is embedded explicitly as
  `parseSuccess` and `successOf`.
* `evaluate` takes the wall-clock time `now` as an explicit parameter,
  standing for `datetime.now()` (line 89); the code returns it as the
  reported timestamp in the no-data branches.
* The code returns only `(send_alert, timestamp)` but computes the
  critical and non-critical failure sets (lines 172-175 and 189-192) as
  the two complementary filters of `all_failures`; `EvalResult` carries
  all four components, as the specification's `evaluate` does.
-/

/-- One row of the monitoring log after the column conversions of
`analyze_results` succeeded.  `timestamp` is `none` for a cell that was
missing/empty (pandas `NaT`); a malformed non-empty cell never reaches
this type, because `pd.to_datetime` (line 119) raises on it — see
`RawRecord` and `analyzeResults` for that path. -/
structure CheckRecord where
  timestamp : Option Nat
  checkType : String
  checkName : String
  targetHost : String
  targetPort : Option Int
  success : Option String
  details : Option String
deriving DecidableEq, Repr

/-- Lower-casing of a string, character by character (the `.str.lower()`
of NMO.py line 127). -/
def lowerString (s : String) : String :=
  String.mk (s.data.map Char.toLower)

/-- Boolean parse of the raw `Success` column (NMO.py lines 126-127): the
value is stringified, lower-cased and mapped through
true/yes ↦ True, false/no ↦ False; anything else, or a missing cell,
yields `none` (pandas `NaN`). -/
def parseSuccess : Option String → Option Bool
  | none => none
  | some s =>
    if lowerString s = "true" then some true
    else if lowerString s = "yes" then some true
    else if lowerString s = "false" then some false
    else if lowerString s = "no" then some false
    else none

/-- Effective success value after the fail-closed fill of line 129
(`astype(boolean).fillna(False)`): an unparseable or missing value is
treated as a failed check. -/
def successOf (r : CheckRecord) : Bool :=
  (parseSuccess r.success).getD false

/-- The critical criterion of lines 156-167 (restated as the filter of
lines 172-175): an RDP inbound-listen failure on port 3389, or any
outbound TCP / outbound ICMP check. -/
def isCritical (r : CheckRecord) : Bool :=
  (decide (r.checkType = "Inbound Listen Check")
      && decide (r.targetPort = some 3389))
  || decide (r.checkType = "Outbound TCP")
  || decide (r.checkType = "Outbound ICMP")

/-- Maximum of a list of naturals, 0 on the empty list; embeds the
`df[Timestamp].max()` of line 135 (only used on a non-empty column). -/
def listMax : List Nat → Nat
  | [] => 0
  | t :: ts => max t (listMax ts)

/-- The latest timestamp present in the log (line 135): the maximum over
the successfully parsed timestamps. -/
def latestTimestamp (records : List CheckRecord) : Nat :=
  listMax (records.filterMap (fun r => r.timestamp))

/-- The latest batch (line 140): the rows whose timestamp equals the
latest timestamp, by exact equality.  A row whose timestamp failed to
parse never equals `some _`, mirroring pandas `NaT == t` being false. -/
def batchOf (records : List CheckRecord) : List CheckRecord :=
  records.filter (fun r => decide (r.timestamp = some (latestTimestamp records)))

/-- All failures of the latest batch (line 148):
`latest_results[latest_results[Success] == False]`. -/
def failuresOf (records : List CheckRecord) : List CheckRecord :=
  (batchOf records).filter (fun r => !(successOf r))

/-- The decision tuple of the specification's `evaluate`. -/
structure EvalResult where
  alert : Bool
  batchTimestamp : Nat
  criticalFailures : List CheckRecord
  nonCriticalFailures : List CheckRecord
deriving DecidableEq, Repr

/-- The latest-batch alert evaluator on a successfully converted frame
(`analyze_results`, lines 112-202, once the conversion of lines 118-124
did not raise; the conversion guard itself is embedded in
`analyzeResults`).  Branches in order: empty frame (line 113); all
timestamps `NaT` (line 132); no rows matching the latest timestamp
(line 142); no failures in the latest batch (line 150); otherwise alert
iff some failure meets the critical criterion (lines 156-167), with the
critical and non-critical partitions of lines 172-175 and 189-192. -/
def evaluate (now : Nat) (records : List CheckRecord) : EvalResult :=
  if records = [] then
    { alert := false, batchTimestamp := now
      criticalFailures := [], nonCriticalFailures := [] }
  else if records.filterMap (fun r => r.timestamp) = [] then
    { alert := false, batchTimestamp := now
      criticalFailures := [], nonCriticalFailures := [] }
  else if batchOf records = [] then
    { alert := false, batchTimestamp := latestTimestamp records
      criticalFailures := [], nonCriticalFailures := [] }
  else if failuresOf records = [] then
    { alert := false, batchTimestamp := latestTimestamp records
      criticalFailures := [], nonCriticalFailures := [] }
  else
    { alert := !((failuresOf records).filter isCritical).isEmpty
      batchTimestamp := latestTimestamp records
      criticalFailures := (failuresOf records).filter isCritical
      nonCriticalFailures := (failuresOf records).filter (fun r => !(isCritical r)) }

/-- Outcome of `pd.to_datetime` (line 119, default errors = raise) on one
raw Timestamp cell: a missing/empty cell becomes `NaT`; a malformed
non-empty string raises; a well-formed one parses to a time point. -/
inductive RawTimestamp where
  | missing
  | malformed
  | parsed (t : Nat)
deriving DecidableEq, Repr

/-- Whether a raw Timestamp cell parses to an actual time point. -/
def isParsedTimestamp : RawTimestamp → Bool
  | RawTimestamp.parsed _ => true
  | _ => false

/-- One row of the CSV as loaded (line 112), before the column
conversions of lines 118-129. -/
structure RawRecord where
  rawTimestamp : RawTimestamp
  checkType : String
  checkName : String
  targetHost : String
  targetPort : Option Int
  success : Option String
  details : Option String
deriving DecidableEq, Repr

/-- Column conversion of one row when no cell raised: a missing cell
becomes `NaT` (`none`), a parsed cell its time point.  The malformed arm
is irrelevant: `analyzeResults` only converts when no cell is malformed. -/
def convertRecord (r : RawRecord) : CheckRecord :=
  { timestamp :=
      match r.rawTimestamp with
      | RawTimestamp.missing => none
      | RawTimestamp.malformed => none
      | RawTimestamp.parsed t => some t
    checkType := r.checkType, checkName := r.checkName
    targetHost := r.targetHost, targetPort := r.targetPort
    success := r.success, details := r.details }

/-- Whether some Timestamp cell of the frame makes `pd.to_datetime`
raise (line 119). -/
def hasMalformedTimestamp (raws : List RawRecord) : Bool :=
  raws.any (fun r => decide (r.rawTimestamp = RawTimestamp.malformed))

/-- The analysis routine including the column-conversion guard
(`analyze_results`, lines 112-202): an empty frame returns the wall-clock
sentinel (lines 113-115); if any Timestamp cell is malformed,
`pd.to_datetime` raises and the except of lines 122-124 returns the
wall-clock sentinel without evaluating any row; otherwise the analysis
proceeds on the converted frame. -/
def analyzeResults (now : Nat) (raws : List RawRecord) : EvalResult :=
  if raws = [] then
    { alert := false, batchTimestamp := now
      criticalFailures := [], nonCriticalFailures := [] }
  else if hasMalformedTimestamp raws then
    { alert := false, batchTimestamp := now
      criticalFailures := [], nonCriticalFailures := [] }
  else
    evaluate now (raws.map convertRecord)

/-! Basic lemmas about the embedded definitions. -/

theorem listMax_mem {l : List Nat} (h : l ≠ []) : listMax l ∈ l := by
  induction l with
  | nil => exact absurd rfl h
  | cons t ts ih =>
    by_cases hts : ts = []
    · subst hts; simp [listMax]
    · rcases Nat.le_total t (listMax ts) with hle | hle
      · have : listMax (t :: ts) = listMax ts := by
          simp [listMax, Nat.max_eq_right hle]
        rw [this]
        exact List.mem_cons_of_mem _ (ih hts)
      · have : listMax (t :: ts) = t := by
          simp [listMax, Nat.max_eq_left hle]
        rw [this]
        exact List.mem_cons_self _ _

theorem le_listMax {l : List Nat} {x : Nat} (h : x ∈ l) : x ≤ listMax l := by
  induction l with
  | nil => cases h
  | cons t ts ih =>
    rcases List.mem_cons.mp h with rfl | hmem
    · exact Nat.le_max_left _ _
    · exact Nat.le_trans (ih hmem) (Nat.le_max_right _ _)

theorem failuresOf_nil : failuresOf [] = [] := rfl

theorem batchOf_eq_nil_of_no_timestamp {records : List CheckRecord}
    (h : ∀ r ∈ records, r.timestamp = none) : batchOf records = [] := by
  unfold batchOf
  rw [List.filter_eq_nil_iff]
  intro r hr
  simp [h r hr]

/-- The three data components of the evaluator's output, expressed through
the batch/failure filters, uniformly over all branches. -/
theorem evaluate_parts (now : Nat) (records : List CheckRecord) :
    (evaluate now records).alert
        = !((failuresOf records).filter isCritical).isEmpty
    ∧ (evaluate now records).criticalFailures
        = (failuresOf records).filter isCritical
    ∧ (evaluate now records).nonCriticalFailures
        = (failuresOf records).filter (fun r => !(isCritical r)) := by
  unfold evaluate
  split
  · next h => subst h; exact ⟨rfl, rfl, rfl⟩
  · split
    · next h =>
      have hb : batchOf records = [] :=
        batchOf_eq_nil_of_no_timestamp (List.filterMap_eq_nil_iff.mp h)
      simp [failuresOf, hb]
    · split
      · next h => simp [failuresOf, h]
      · split
        · next h => simp [h]
        · exact ⟨rfl, rfl, rfl⟩

/-! Concrete records used by the specification's scenarios. -/

/-- A failed RDP inbound-listen check (port 3389) at time 1. -/
def recRdp3389 : CheckRecord :=
  { timestamp := some 1, checkType := "Inbound Listen Check", checkName := "RDP Listen"
    targetHost := "server", targetPort := some 3389, success := some "False", details := none }

/-- A failed inbound-listen check on port 8080 at time 1. -/
def recWeb8080 : CheckRecord :=
  { timestamp := some 1, checkType := "Inbound Listen Check", checkName := "Web Listen"
    targetHost := "server", targetPort := some 8080, success := some "False", details := none }

/-- A failed outbound ICMP check at time 1. -/
def recIcmpFail : CheckRecord :=
  { timestamp := some 1, checkType := "Outbound ICMP", checkName := "Ping WAN"
    targetHost := "8.8.8.8", targetPort := none, success := some "False", details := none }

/-- A successful RDP inbound-listen check at time 1. -/
def recRdpOk : CheckRecord :=
  { timestamp := some 1, checkType := "Inbound Listen Check", checkName := "RDP Listen"
    targetHost := "server", targetPort := some 3389, success := some "True", details := none }

/-- A failed outbound TCP check at the strictly older time 0. -/
def recOldTcp : CheckRecord :=
  { timestamp := some 0, checkType := "Outbound TCP", checkName := "TCP 443"
    targetHost := "example.net", targetPort := some 443, success := some "False", details := none }

/-- A record whose timestamp failed to parse (pandas `NaT`). -/
def recBadTs : CheckRecord :=
  { timestamp := none, checkType := "Outbound TCP", checkName := "TCP 443"
    targetHost := "example.net", targetPort := some 443, success := some "False", details := none }

/-- A record whose Success cell is the empty string (unparseable boolean). -/
def recEmptySucc : CheckRecord :=
  { timestamp := some 2, checkType := "Disk Space", checkName := "Disk C"
    targetHost := "server", targetPort := none, success := some "", details := none }

/-- A failed inbound-listen record whose port failed numeric coercion. -/
def recNoPort : CheckRecord :=
  { timestamp := some 3, checkType := "Inbound Listen Check", checkName := "RDP Listen"
    targetHost := "server", targetPort := none, success := some "False", details := none }

/-- A raw row whose Timestamp cell is a malformed non-empty string, on
which `pd.to_datetime` raises. -/
def rawMalformedTcp : RawRecord :=
  { rawTimestamp := RawTimestamp.malformed, checkType := "Outbound TCP", checkName := "TCP 443"
    targetHost := "example.net", targetPort := some 443, success := some "False", details := none }

/-- A raw row with a well-formed Timestamp cell; its conversion is
`recIcmpFail`. -/
def rawIcmpFail : RawRecord :=
  { rawTimestamp := RawTimestamp.parsed 1, checkType := "Outbound ICMP", checkName := "Ping WAN"
    targetHost := "8.8.8.8", targetPort := none, success := some "False", details := none }

/-! Membership characterisations of the batch and failure filters. -/

theorem bnot_isEmpty_iff {α : Type} {l : List α} : (!l.isEmpty) = true ↔ l ≠ [] := by
  cases l <;> simp

theorem mem_batchOf {records : List CheckRecord} {r : CheckRecord} :
    r ∈ batchOf records ↔ r ∈ records ∧ r.timestamp = some (latestTimestamp records) := by
  unfold batchOf
  rw [List.mem_filter]
  simp

theorem mem_failuresOf {records : List CheckRecord} {r : CheckRecord} :
    r ∈ failuresOf records ↔ r ∈ batchOf records ∧ successOf r = false := by
  unfold failuresOf
  rw [List.mem_filter]
  simp

/-- The critical criterion, spelled out as a proposition. -/
theorem isCritical_eq_true_iff (r : CheckRecord) :
    isCritical r = true
      ↔ ((r.checkType = "Inbound Listen Check" ∧ r.targetPort = some 3389)
          ∨ r.checkType = "Outbound TCP" ∨ r.checkType = "Outbound ICMP") := by
  unfold isCritical
  simp [or_assoc]

/-- The alert fires exactly when the latest batch holds a failed record
meeting the critical criterion. -/
theorem alert_eq_true_iff (now : Nat) (records : List CheckRecord) :
    (evaluate now records).alert = true
      ↔ ∃ r ∈ batchOf records, successOf r = false ∧ isCritical r = true := by
  obtain ⟨ha, -, -⟩ := evaluate_parts now records
  rw [ha, bnot_isEmpty_iff]
  constructor
  · intro hne
    obtain ⟨r, hr⟩ := List.exists_mem_of_ne_nil _ hne
    rw [List.mem_filter] at hr
    obtain ⟨hrf, hrc⟩ := hr
    rw [mem_failuresOf] at hrf
    exact ⟨r, hrf.1, hrf.2, hrc⟩
  · rintro ⟨r, hb, hs, hc⟩
    apply List.ne_nil_of_mem (a := r)
    rw [List.mem_filter]
    exact ⟨mem_failuresOf.mpr ⟨hb, hs⟩, hc⟩

/-- C1: whenever the latest batch contains at least one failed record, the
evaluator alerts exactly when some failed record of that batch satisfies
the critical criterion — inbound listen check on port 3389, or an outbound
TCP / outbound ICMP check; a failure satisfying neither disjunct never
makes the alert fire on its own. -/
theorem evaluate_alert_iff_critical_failure (now : Nat) (records : List CheckRecord)
    (_h : ∃ r ∈ batchOf records, successOf r = false) :
    (evaluate now records).alert = true
      ↔ ∃ r ∈ batchOf records, successOf r = false
          ∧ ((r.checkType = "Inbound Listen Check" ∧ r.targetPort = some 3389)
              ∨ r.checkType = "Outbound TCP" ∨ r.checkType = "Outbound ICMP") := by
  rw [alert_eq_true_iff now records]
  constructor
  · rintro ⟨r, hb, hs, hc⟩
    exact ⟨r, hb, hs, (isCritical_eq_true_iff r).mp hc⟩
  · rintro ⟨r, hb, hs, hc⟩
    exact ⟨r, hb, hs, (isCritical_eq_true_iff r).mpr hc⟩

theorem evaluate_alert_iff_critical_failure_witness :
    (evaluate 0 [recRdp3389, recWeb8080]).alert = true
      ↔ ∃ r ∈ batchOf [recRdp3389, recWeb8080], successOf r = false
          ∧ ((r.checkType = "Inbound Listen Check" ∧ r.targetPort = some 3389)
              ∨ r.checkType = "Outbound TCP" ∨ r.checkType = "Outbound ICMP") :=
  evaluate_alert_iff_critical_failure 0 [recRdp3389, recWeb8080] (by decide)

/-- C4: on an empty record list — and more generally whenever every
timestamp failed to parse — the evaluator reports no alert, the
evaluation wall-clock time `now` as the batch timestamp, and empty
critical and non-critical failure lists. -/
theorem evaluate_no_data_wallclock (now : Nat) (records : List CheckRecord)
    (h : ∀ r ∈ records, r.timestamp = none) :
    evaluate now records
      = { alert := false, batchTimestamp := now
          criticalFailures := [], nonCriticalFailures := [] } := by
  unfold evaluate
  rcases eq_or_ne records [] with rfl | hne
  · simp
  · have hfm : records.filterMap (fun r => r.timestamp) = [] :=
      List.filterMap_eq_nil_iff.mpr h
    rw [if_neg hne, if_pos hfm]

theorem evaluate_no_data_wallclock_witness :
    evaluate 7 ([] : List CheckRecord)
      = { alert := false, batchTimestamp := 7
          criticalFailures := [], nonCriticalFailures := [] }
    ∧ evaluate 7 [recBadTs]
      = { alert := false, batchTimestamp := 7
          criticalFailures := [], nonCriticalFailures := [] } :=
  ⟨evaluate_no_data_wallclock 7 [] (by decide),
   evaluate_no_data_wallclock 7 [recBadTs] (by decide)⟩

/-- C8: the evaluator is a total function of its input (it is defined for
every record list, so it always produces a decision tuple), and it never
alerts unless some failed record of the latest batch matches the explicit
critical criteria. -/
theorem evaluate_alert_only_from_critical (now : Nat) (records : List CheckRecord)
    (h : (evaluate now records).alert = true) :
    ∃ r ∈ batchOf records, successOf r = false
      ∧ ((r.checkType = "Inbound Listen Check" ∧ r.targetPort = some 3389)
          ∨ r.checkType = "Outbound TCP" ∨ r.checkType = "Outbound ICMP") := by
  obtain ⟨r, hb, hs, hc⟩ := (alert_eq_true_iff now records).mp h
  exact ⟨r, hb, hs, (isCritical_eq_true_iff r).mp hc⟩

theorem evaluate_alert_only_from_critical_witness :
    ∃ r ∈ batchOf [recIcmpFail], successOf r = false
      ∧ ((r.checkType = "Inbound Listen Check" ∧ r.targetPort = some 3389)
          ∨ r.checkType = "Outbound TCP" ∨ r.checkType = "Outbound ICMP") :=
  evaluate_alert_only_from_critical 0 [recIcmpFail] (by decide)

/-- On a converted frame in which some timestamp parsed, the post-
conversion analysis never consults the wall-clock parameter, and the
reported batch timestamp is the latest record timestamp. -/
theorem evaluate_now_irrelevant (n1 n2 : Nat) (records : List CheckRecord)
    (h : ∃ r ∈ records, r.timestamp ≠ none) :
    evaluate n1 records = evaluate n2 records
    ∧ (evaluate n1 records).batchTimestamp = latestTimestamp records := by
  obtain ⟨r, hr, hne⟩ := h
  obtain ⟨t, ht⟩ := Option.ne_none_iff_exists'.mp hne
  have h1 : records ≠ [] := List.ne_nil_of_mem hr
  have h2 : records.filterMap (fun s => s.timestamp) ≠ [] :=
    List.ne_nil_of_mem (List.mem_filterMap.mpr ⟨r, hr, ht⟩)
  constructor
  · unfold evaluate
    rw [if_neg h1, if_neg h1, if_neg h2, if_neg h2]
  · unfold evaluate
    rw [if_neg h1, if_neg h2]
    by_cases hb : batchOf records = []
    · rw [if_pos hb]
    · rw [if_neg hb]
      by_cases hf : failuresOf records = []
      · rw [if_pos hf]
      · rw [if_neg hf]

/-- C10: when at least one record's timestamp parses, the record attaining
the maximum timestamp lies in the latest batch, so the batch is non-empty
and the code's fallback branch for "no results matching the latest
timestamp" (NMO.py lines 142-144) — whose guard is exactly
`batchOf records = []` — is unreachable. -/
theorem evaluate_latest_batch_nonempty (records : List CheckRecord)
    (h : ∃ r ∈ records, r.timestamp ≠ none) :
    batchOf records ≠ [] := by
  obtain ⟨r, hr, hne⟩ := h
  obtain ⟨t, ht⟩ := Option.ne_none_iff_exists'.mp hne
  have hmax : latestTimestamp records ∈ records.filterMap (fun s => s.timestamp) :=
    listMax_mem (List.ne_nil_of_mem (List.mem_filterMap.mpr ⟨r, hr, ht⟩))
  obtain ⟨s, hs, hst⟩ := List.mem_filterMap.mp hmax
  exact List.ne_nil_of_mem (mem_batchOf.mpr ⟨hs, hst⟩)

theorem evaluate_latest_batch_nonempty_witness :
    batchOf [recIcmpFail, recOldTcp] ≠ [] :=
  evaluate_latest_batch_nonempty [recIcmpFail, recOldTcp] (by decide)

/-- C2: the critical and non-critical failure lists are disjoint and
together are exactly the failed records of the latest batch, membership
decided by the critical criterion; in the spec's two-record scenario the
alert fires, the port-3389 record is the only critical failure and the
port-8080 record the only non-critical one. -/
theorem evaluate_failures_partition (now : Nat) (records : List CheckRecord) :
    (∀ r, r ∈ failuresOf records ↔ r ∈ batchOf records ∧ successOf r = false)
    ∧ (∀ r, r ∈ (evaluate now records).criticalFailures
          ↔ r ∈ failuresOf records ∧ isCritical r = true)
    ∧ (∀ r, r ∈ (evaluate now records).nonCriticalFailures
          ↔ r ∈ failuresOf records ∧ isCritical r = false)
    ∧ (∀ r, ¬(r ∈ (evaluate now records).criticalFailures
          ∧ r ∈ (evaluate now records).nonCriticalFailures))
    ∧ evaluate 0 [recRdp3389, recWeb8080]
        = { alert := true, batchTimestamp := 1
            criticalFailures := [recRdp3389], nonCriticalFailures := [recWeb8080] } := by
  obtain ⟨-, hc, hn⟩ := evaluate_parts now records
  refine ⟨fun r => mem_failuresOf, ?_, ?_, ?_, by decide⟩
  · intro r
    rw [hc]
    simp [List.mem_filter]
  · intro r
    rw [hn]
    simp [List.mem_filter]
  · rintro r ⟨h1, h2⟩
    rw [hc, List.mem_filter] at h1
    rw [hn, List.mem_filter] at h2
    rw [h1.2] at h2
    exact Bool.noConfusion h2.2

/-- C3: the evaluator considers exactly the records whose timestamp equals
the maximum timestamp present, by exact equality: batch membership is
equality with the maximum, every parsed timestamp is bounded by the
maximum, both returned failure lists draw only from the batch, and in the
spec's scenario the strictly older outbound failure is excluded while the
alert fires from the latest batch's ICMP failure. -/
theorem evaluate_batch_is_exactly_latest (now : Nat) (records : List CheckRecord) :
    (∀ r, r ∈ batchOf records
        ↔ r ∈ records ∧ r.timestamp = some (latestTimestamp records))
    ∧ (∀ r ∈ records, ∀ t, r.timestamp = some t → t ≤ latestTimestamp records)
    ∧ (∀ r ∈ (evaluate now records).criticalFailures, r ∈ batchOf records)
    ∧ (∀ r ∈ (evaluate now records).nonCriticalFailures, r ∈ batchOf records)
    ∧ evaluate 5 [recIcmpFail, recRdpOk, recOldTcp]
        = { alert := true, batchTimestamp := 1
            criticalFailures := [recIcmpFail], nonCriticalFailures := [] } := by
  obtain ⟨-, hc, hn⟩ := evaluate_parts now records
  refine ⟨fun r => mem_batchOf, ?_, ?_, ?_, by decide⟩
  · intro r hr t ht
    exact le_listMax (List.mem_filterMap.mpr ⟨r, hr, ht⟩)
  · intro r hr
    rw [hc, List.mem_filter] at hr
    exact (mem_failuresOf.mp hr.1).1
  · intro r hr
    rw [hn, List.mem_filter] at hr
    exact (mem_failuresOf.mp hr.1).1

/-- C5: refuted on the code.  `pd.to_datetime` (line 119) runs with its
default errors = raise, so one malformed Timestamp cell aborts the whole
analysis through the except of lines 122-124, which returns the
wall-clock no-data sentinel: the malformed row is not discarded, and the
remaining rows are not evaluated at all.  At the failing input below,
discarding only the malformed row — as the claim states — would alert on
the outbound ICMP failure of the latest batch, but the code reports no
alert and the wall-clock timestamp. -/
theorem analyzeResults_malformed_timestamp_fatal :
    (∀ now, analyzeResults now [rawMalformedTcp, rawIcmpFail]
        = { alert := false, batchTimestamp := now
            criticalFailures := [], nonCriticalFailures := [] })
    ∧ evaluate 7 (([rawMalformedTcp, rawIcmpFail].filter
          (fun r => decide (r.rawTimestamp ≠ RawTimestamp.malformed))).map convertRecord)
        = { alert := true, batchTimestamp := 1
            criticalFailures := [recIcmpFail], nonCriticalFailures := [] } :=
  ⟨fun _ => rfl, by decide⟩

/-- C6: a missing Success cell, and a Success cell that does not parse as
a boolean (for example the empty string), is coerced to false, so such a
record of the latest batch participates in the failure partitioning as a
failed check — it appears among the critical or non-critical failures,
never as a passing one. -/
theorem evaluate_fail_closed_success (now : Nat) (records : List CheckRecord)
    (r : CheckRecord) (h1 : r ∈ batchOf records)
    (h2 : parseSuccess r.success = none) :
    parseSuccess (some "") = none
    ∧ parseSuccess none = none
    ∧ successOf r = false
    ∧ r ∈ failuresOf records
    ∧ (r ∈ (evaluate now records).criticalFailures
        ∨ r ∈ (evaluate now records).nonCriticalFailures) := by
  have hs : successOf r = false := by
    unfold successOf
    rw [h2]
    rfl
  have hf : r ∈ failuresOf records := mem_failuresOf.mpr ⟨h1, hs⟩
  obtain ⟨-, hc, hn⟩ := evaluate_parts now records
  refine ⟨by decide, rfl, hs, hf, ?_⟩
  cases hcrit : isCritical r with
  | false =>
    right
    rw [hn, List.mem_filter]
    exact ⟨hf, by simp [hcrit]⟩
  | true =>
    left
    rw [hc, List.mem_filter]
    exact ⟨hf, hcrit⟩

theorem evaluate_fail_closed_success_witness :
    parseSuccess (some "") = none
    ∧ parseSuccess none = none
    ∧ successOf recEmptySucc = false
    ∧ recEmptySucc ∈ failuresOf [recEmptySucc]
    ∧ (recEmptySucc ∈ (evaluate 0 [recEmptySucc]).criticalFailures
        ∨ recEmptySucc ∈ (evaluate 0 [recEmptySucc]).nonCriticalFailures) :=
  evaluate_fail_closed_success 0 [recEmptySucc] recEmptySucc (by decide) (by decide)

/-- C7: a failed inbound-listen record of the latest batch whose port is
absent or failed numeric coercion never matches the critical
inbound-port-3389 rule: it is classified as a non-critical failure, never
as a critical one, and an alert can only come from some other, critical
failed record. -/
theorem evaluate_portless_inbound_noncritical (now : Nat)
    (records : List CheckRecord) (r : CheckRecord)
    (h1 : r ∈ batchOf records) (h2 : successOf r = false)
    (h3 : r.checkType = "Inbound Listen Check") (h4 : r.targetPort = none) :
    isCritical r = false
    ∧ r ∈ (evaluate now records).nonCriticalFailures
    ∧ r ∉ (evaluate now records).criticalFailures
    ∧ ((evaluate now records).alert = true
        → ∃ s ∈ failuresOf records, isCritical s = true ∧ s ≠ r) := by
  have hcrit : isCritical r = false := by
    simp [isCritical, h3, h4]
  have hf : r ∈ failuresOf records := mem_failuresOf.mpr ⟨h1, h2⟩
  obtain ⟨ha, hc, hn⟩ := evaluate_parts now records
  refine ⟨hcrit, ?_, ?_, ?_⟩
  · rw [hn, List.mem_filter]
    exact ⟨hf, by simp [hcrit]⟩
  · rw [hc, List.mem_filter]
    rintro ⟨-, hcr⟩
    rw [hcrit] at hcr
    exact Bool.noConfusion hcr
  · intro halert
    rw [ha, bnot_isEmpty_iff] at halert
    obtain ⟨s, hsmem⟩ := List.exists_mem_of_ne_nil _ halert
    rw [List.mem_filter] at hsmem
    rcases hsmem with ⟨hs1, hs2⟩
    refine ⟨s, hs1, hs2, fun hEq => ?_⟩
    rw [hEq, hcrit] at hs2
    exact Bool.noConfusion hs2

theorem evaluate_portless_inbound_noncritical_witness :
    isCritical recNoPort = false
    ∧ recNoPort ∈ (evaluate 0 [recNoPort]).nonCriticalFailures
    ∧ recNoPort ∉ (evaluate 0 [recNoPort]).criticalFailures
    ∧ ((evaluate 0 [recNoPort]).alert = true
        → ∃ s ∈ failuresOf [recNoPort], isCritical s = true ∧ s ≠ recNoPort) :=
  evaluate_portless_inbound_noncritical 0 [recNoPort] recNoPort
    (by decide) (by decide) (by decide) (by decide)

/-- C9: counterexample to the claim as stated — a non-empty record list
holding a parseable timestamp (the claim's hypothesis) on which the
analysis is nevertheless wall-clock dependent: the malformed Timestamp
cell routes the run through the except of lines 122-124, whose result
embeds the wall-clock time, so two invocations at different wall-clock
times disagree. -/
theorem analyzeResults_not_wallclock_independent :
    isParsedTimestamp rawIcmpFail.rawTimestamp = true
    ∧ rawIcmpFail ∈ [rawMalformedTcp, rawIcmpFail]
    ∧ analyzeResults 3 [rawMalformedTcp, rawIcmpFail]
        ≠ analyzeResults 99 [rawMalformedTcp, rawIcmpFail] := by decide

/-- C9 (amended): for every non-empty sequence of records in which at
least one timestamp parses and no Timestamp cell is malformed (every
cell parses or is missing), any two invocations of the analysis on that
same sequence return identical results, and the reported batch timestamp
is the latest record timestamp — independent of the wall clock. -/
theorem analyzeResults_pure_deterministic (n1 n2 : Nat) (raws : List RawRecord)
    (h1 : ∃ r ∈ raws, isParsedTimestamp r.rawTimestamp = true)
    (h2 : ∀ r ∈ raws, r.rawTimestamp ≠ RawTimestamp.malformed) :
    analyzeResults n1 raws = analyzeResults n2 raws
    ∧ (analyzeResults n1 raws).batchTimestamp
        = latestTimestamp (raws.map convertRecord) := by
  have hne : raws ≠ [] := by
    obtain ⟨r, hr, -⟩ := h1
    exact List.ne_nil_of_mem hr
  have hmal : hasMalformedTimestamp raws = false := by
    cases hm : hasMalformedTimestamp raws with
    | false => rfl
    | true =>
      obtain ⟨r, hr, hp⟩ := List.any_eq_true.mp hm
      exact absurd (of_decide_eq_true hp) (h2 r hr)
  have hmal' : ¬(hasMalformedTimestamp raws = true) := by simp [hmal]
  have key : ∀ n : Nat, analyzeResults n raws = evaluate n (raws.map convertRecord) := by
    intro n
    unfold analyzeResults
    rw [if_neg hne, if_neg hmal']
  have hconv : ∃ cr ∈ raws.map convertRecord, cr.timestamp ≠ none := by
    obtain ⟨r, hr, hp⟩ := h1
    refine ⟨convertRecord r, List.mem_map_of_mem _ hr, ?_⟩
    cases hrt : r.rawTimestamp with
    | missing => simp [isParsedTimestamp, hrt] at hp
    | malformed => simp [isParsedTimestamp, hrt] at hp
    | parsed t => simp [convertRecord, hrt]
  obtain ⟨hdet, hts⟩ := evaluate_now_irrelevant n1 n2 (raws.map convertRecord) hconv
  rw [key n1, key n2]
  exact ⟨hdet, hts⟩

theorem analyzeResults_pure_deterministic_witness :
    analyzeResults 3 [rawIcmpFail] = analyzeResults 99 [rawIcmpFail]
    ∧ (analyzeResults 3 [rawIcmpFail]).batchTimestamp
        = latestTimestamp ([rawIcmpFail].map convertRecord) :=
  analyzeResults_pure_deterministic 3 99 [rawIcmpFail] (by decide) (by decide)
